import Mathlib

/-!
Shallow embedding of `examples/nlp/language_modeling/tuning/megatron_gpt_peft_eval.py`.

The script is orchestration glue: it validates two mandatory restore paths,
builds a distributed-execution strategy and precision plugins, restores the
adapter configuration and patches it with run-time overrides, restores the base
model, builds a test dataloader, runs prediction, and writes the collected
sentences to a file (or prints them) on the coordinating process.

Python strings that the code splits and joins are modelled as `List Char`;
configuration scalars are modelled with `Int`, `Bool`, `Option` for nullable
fields.  External collaborators (checkpoint restore, the filesystem `isdir`
check, the predict loop, the process rank) are opaque parameters collected in
an `Env` record; the control flow and data flow of `main` itself is translated
line by line from the source.
-/

namespace MegatronGptPeftEval

/-- A Python configuration scalar that may be the int `16`, the string
`"bf16"`, or any other int/string value (`cfg.trainer.precision`). -/
inductive Precision where
  | int (n : Int)
  | str (s : String)
deriving DecidableEq, Repr

/-- The `model.data.test_ds` configuration subtree.  Fields the script reads
are explicit; the remaining keys are kept as an opaque association list so
that whole-subtree assignment and comparison are meaningful. -/
structure TestDsCfg where
  add_bos : Bool
  tokens_to_generate : Int
  global_batch_size : Int
  others : List (String × String)
deriving DecidableEq, Repr

/-- The `model.data` configuration subtree. -/
structure DataCfg where
  test_ds : TestDsCfg
deriving DecidableEq, Repr

/-- The `model.peft` configuration subtree. -/
structure PeftCfg where
  restore_from_path : Option String
deriving DecidableEq, Repr

/-- The `cfg.model` configuration subtree.  `megatron_amp_O2`,
`native_amp_init_scale`, `native_amp_growth_interval` and `hysteresis` are
accessed with `cfg.model.get(key, default)`, hence `Option`. -/
structure ModelCfg where
  restore_from_path : Option String
  peft : PeftCfg
  megatron_amp_O2 : Option Bool
  gradient_as_bucket_view : Bool
  native_amp_init_scale : Option Int
  native_amp_growth_interval : Option Int
  hysteresis : Option Int
  pipeline_model_parallel_size : Int
  data : DataCfg
deriving DecidableEq, Repr

/-- The `cfg.trainer` configuration subtree (passed to `Trainer(**cfg.trainer)`). -/
structure TrainerCfg where
  precision : Precision
  others : List (String × String)
deriving DecidableEq, Repr

/-- The `cfg.inference` configuration subtree. -/
structure InferenceCfg where
  outfile_path : Option String
  add_BOS : Bool
  tokens_to_generate : Int
  others : List (String × String)
deriving DecidableEq, Repr

/-- The full configuration tree handed to `main` by the hydra runner. -/
structure Config where
  model : ModelCfg
  trainer : TrainerCfg
  inference : InferenceCfg
  cluster_type : Option String
deriving DecidableEq, Repr

/-- The `GradScaler(...)` loss-scaling helper, recording its constructor
arguments. -/
structure GradScaler where
  init_scale : Int
  growth_interval : Int
  hysteresis : Int
  enabled : Bool
deriving DecidableEq, Repr

/-- The `NLPDDPStrategy(...)` execution strategy, recording its constructor
arguments. -/
structure NLPDDPStrategy where
  no_ddp_communication_hook : Bool
  gradient_as_bucket_view : Bool
  find_unused_parameters : Bool
deriving DecidableEq, Repr

/-- A plugin placed in the `plugins` list passed to the `Trainer`. -/
inductive Plugin where
  | megatronHalfPrecision (precision : Precision) (device : String)
      (scaler : Option GradScaler)
  | pipelineMixedPrecision (precision : Precision) (device : String)
      (scaler : Option GradScaler)
  | torchElasticEnvironment
deriving DecidableEq, Repr

/-- `True` for the two numeric precision plugins, `false` for the
elastic-environment plugin. -/
def Plugin.isNumeric : Plugin → Bool
  | .megatronHalfPrecision _ _ _ => true
  | .pipelineMixedPrecision _ _ _ => true
  | .torchElasticEnvironment => false

/-- `True` exactly for the half-precision plugin. -/
def Plugin.isHalf : Plugin → Bool
  | .megatronHalfPrecision _ _ _ => true
  | _ => false

/-- The `scaler` argument a precision plugin was constructed with (`none` for
the elastic-environment plugin, which takes no scaler). -/
def Plugin.scalerOf : Plugin → Option GradScaler
  | .megatronHalfPrecision _ _ s => s
  | .pipelineMixedPrecision _ _ s => s
  | .torchElasticEnvironment => none

/-- The `Trainer(plugins=..., strategy=..., **cfg.trainer)` object. -/
structure Trainer where
  plugins : List Plugin
  strategy : NLPDDPStrategy
  trainer_cfg : TrainerCfg
deriving DecidableEq, Repr

/-- The configuration restored from the adapter checkpoint by
`MegatronGPTPEFTModel.restore_from(..., return_config=True)`; only the fields
the script reads or writes are explicit. -/
structure PeftModelCfg where
  precision : Precision
  restore_from_path : String
  data : DataCfg
  others : List (String × String)
deriving DecidableEq, Repr

/-- The `PEFTSaveRestoreConnector(...)` object, recording its constructor
arguments and the optional `model_extracted_dir` assignment. -/
structure PEFTSaveRestoreConnector where
  peft_model_nemo_path : Option String
  peft_model_ckpt_path : Option String
  model_extracted_dir : Option String
deriving DecidableEq, Repr

/-- One element of the `response` list returned by `trainer.predict`:
a dict holding a list of generated sentences (`batch["sentences"]`).
Sentences are Python strings, modelled as `List Char`. -/
structure Batch where
  sentences : List (List Char)
deriving DecidableEq, Repr

/-- The external collaborators of the script, kept opaque: the metadata-only
checkpoint restore, `os.path.isdir`, the value of `trainer.predict`, and the
process's `model.global_rank`. -/
structure Env where
  restorePeftConfig : String → PeftModelCfg
  isDir : String → Bool
  response : List Batch
  globalRank : Int

/-- Observable steps of `main`, in execution order, used to state that the
mandatory-path assertions fire before anything is constructed. -/
inductive Event where
  | loggedInfo
  | strategyConstructed
  | gradScalerConstructed
  | precisionPluginAppended
  | elasticPluginAppended
  | trainerConstructed
  | peftConfigRestored
  | connectorConstructed
  | modelRestored
  | modelFrozen
  | datasetBuilt
  | dataloaderConstructed
  | predictCalled
  | fileWrittenEv
  | printedResponseEv
  | printedBanner
deriving DecidableEq, Repr

/-- `True` only for the two `logging.info` calls that precede the assertions. -/
def Event.isLog : Event → Bool
  | .loggedInfo => true
  | _ => false

/-- Python's `sentence.split("\n")`: split a string at every newline
character, keeping empty pieces. -/
def pySplitNl : List Char → List (List Char)
  | [] => [[]]
  | c :: rest =>
    match pySplitNl rest with
    | [] => [[]]
    | piece :: pieces =>
      if c = '\n' then [] :: piece :: pieces
      else (c :: piece) :: pieces

/-- Python's `" ".join(pieces)`: interleave a single space between the pieces. -/
def pyJoinSpace : List (List Char) → List Char
  | [] => []
  | [x] => x
  | x :: y :: rest => x ++ ' ' :: pyJoinSpace (y :: rest)

/-- `" ".join(sentence.split("\n"))` from the output-writing loop. -/
def collapseNl (s : List Char) : List Char :=
  pyJoinSpace (pySplitNl s)

/-- The bytes written to the outfile: for every batch, for every sentence,
the newline-collapsed sentence followed by `"\n"`, in batch-then-item order. -/
def fileContent (response : List Batch) : List Char :=
  (response.map fun batch =>
    (batch.sentences.map fun sentence => collapseNl sentence ++ ['\n']).flatten).flatten

/-- Number of lines of a written text file: one line per newline terminator. -/
def countLines (content : List Char) : Nat :=
  content.count '\n'

/-- Everything the successful run of `main` constructs or emits. -/
structure MainResult where
  strategy : NLPDDPStrategy
  constructed_scaler : Option GradScaler
  plugins : List Plugin
  trainer : Trainer
  peft_model_cfg : PeftModelCfg
  patched_cfg : Config
  connector : PEFTSaveRestoreConnector
  inference_config : InferenceCfg
  response : List Batch
  written_file : Option (String × List Char)
  printed_response : Option (List Batch)
deriving DecidableEq, Repr

/-- The body of `main` after both assertions have passed, given the two
unwrapped mandatory paths.  Translated statement by statement from the
source. -/
def mainBody (env : Env) (cfg : Config) (base_path peft_path : String) :
    List Event × MainResult :=
  let megatron_amp_o2 := cfg.model.megatron_amp_O2.getD false
  let with_distributed_adam := false
  let strategy : NLPDDPStrategy :=
    { no_ddp_communication_hook := true
      gradient_as_bucket_view := cfg.model.gradient_as_bucket_view
      find_unused_parameters := false }
  let precisionStep : List Plugin × Option GradScaler × List Event :=
    if cfg.trainer.precision = .int 16 ∨ cfg.trainer.precision = .str "bf16" then
      let scaler : Option GradScaler :=
        if cfg.trainer.precision = .int 16 then
          some { init_scale := cfg.model.native_amp_init_scale.getD (2 ^ 32)
                 growth_interval := cfg.model.native_amp_growth_interval.getD 1000
                 hysteresis := cfg.model.hysteresis.getD 2
                 enabled :=
                   if 1 < cfg.model.pipeline_model_parallel_size then false
                   else true }
        else none
      let plugin : Plugin :=
        if megatron_amp_o2 && !with_distributed_adam then
          .megatronHalfPrecision cfg.trainer.precision "cuda" scaler
        else
          .pipelineMixedPrecision cfg.trainer.precision "cuda" scaler
      ([plugin], scaler,
        (if scaler.isSome then [Event.gradScalerConstructed] else []) ++
          [Event.precisionPluginAppended])
    else ([], none, [])
  let clusterPlugins : List Plugin × List Event :=
    if cfg.cluster_type = some "BCP" then
      ([.torchElasticEnvironment], [Event.elasticPluginAppended])
    else ([], [])
  let plugins : List Plugin := precisionStep.1 ++ clusterPlugins.1
  let trainer : Trainer :=
    { plugins := plugins, strategy := strategy, trainer_cfg := cfg.trainer }
  let peft_model_cfg0 := env.restorePeftConfig peft_path
  let peft_model_cfg : PeftModelCfg :=
    { peft_model_cfg0 with
        precision := cfg.trainer.precision
        data := { peft_model_cfg0.data with test_ds := cfg.model.data.test_ds } }
  let cfg1 : Config :=
    { cfg with
        inference :=
          { cfg.inference with
              add_BOS := peft_model_cfg.data.test_ds.add_bos
              tokens_to_generate := peft_model_cfg.data.test_ds.tokens_to_generate } }
  let connector0 : PEFTSaveRestoreConnector :=
    { peft_model_nemo_path := some peft_path
      peft_model_ckpt_path := none
      model_extracted_dir := none }
  let connector : PEFTSaveRestoreConnector :=
    if env.isDir peft_model_cfg.restore_from_path then
      { connector0 with model_extracted_dir := some base_path }
    else connector0
  let inference_config : InferenceCfg := cfg1.inference
  let response : List Batch := env.response
  let output : Option (String × List Char) × Option (List Batch) × List Event :=
    if env.globalRank = 0 then
      match cfg1.inference.outfile_path with
      | some path =>
        (some (path, fileContent response), none,
          [Event.printedBanner, Event.fileWrittenEv])
      | none => (none, some response, [Event.printedBanner, Event.printedResponseEv])
    else (none, none, [])
  ([Event.loggedInfo, Event.loggedInfo, Event.strategyConstructed] ++
      precisionStep.2.2 ++ clusterPlugins.2 ++
      [Event.trainerConstructed, Event.peftConfigRestored,
        Event.connectorConstructed, Event.modelRestored, Event.modelFrozen,
        Event.datasetBuilt, Event.dataloaderConstructed, Event.predictCalled] ++
      output.2.2 ++ [Event.printedBanner],
    { strategy := strategy
      constructed_scaler := precisionStep.2.1
      plugins := plugins
      trainer := trainer
      peft_model_cfg := peft_model_cfg
      patched_cfg := cfg1
      connector := connector
      inference_config := inference_config
      response := response
      written_file := output.1
      printed_response := output.2.1 })

/-- The entry point: the two `assert` statements, then the body.  On a failed
assertion the result is an error and only the two preceding `logging.info`
calls have happened. -/
def main (env : Env) (cfg : Config) : List Event × Except String MainResult :=
  match cfg.model.restore_from_path, cfg.model.peft.restore_from_path with
  | none, _ =>
    ([Event.loggedInfo, Event.loggedInfo],
      .error "assert cfg.model.restore_from_path is not None")
  | some _, none =>
    ([Event.loggedInfo, Event.loggedInfo],
      .error "assert cfg.model.peft.restore_from_path is not None")
  | some base_path, some peft_path =>
    let r := mainBody env cfg base_path peft_path
    (r.1, .ok r.2)

/-- Character-wise newline replacement: the net effect of
`" ".join(s.split("\n"))` on a Python string. -/
def replNl (c : Char) : Char :=
  if c = '\n' then ' ' else c

theorem pySplitNl_ne_nil (s : List Char) : pySplitNl s ≠ [] := by
  cases s with
  | nil => simp [pySplitNl]
  | cons c rest =>
    unfold pySplitNl
    cases pySplitNl rest with
    | nil => simp
    | cons piece pieces =>
      by_cases hc : c = '\n' <;> simp [hc]

theorem pyJoinSpace_cons_cons (c : Char) (piece : List Char)
    (pieces : List (List Char)) :
    pyJoinSpace ((c :: piece) :: pieces) = c :: pyJoinSpace (piece :: pieces) := by
  cases pieces <;> simp [pyJoinSpace]

/-- Splitting at newlines and re-joining with single spaces replaces each
newline character by one space and leaves every other character unchanged. -/
theorem collapseNl_eq_map (s : List Char) : collapseNl s = s.map replNl := by
  induction s with
  | nil => rfl
  | cons c rest ih =>
    unfold collapseNl at ih ⊢
    rcases h : pySplitNl rest with _ | ⟨piece, pieces⟩
    · exact absurd h (pySplitNl_ne_nil rest)
    · rw [h] at ih
      unfold pySplitNl
      rw [h]
      by_cases hc : c = '\n'
      · subst hc
        simp only [if_pos rfl, pyJoinSpace, List.nil_append, List.map_cons, ih]
        simp [replNl]
      · dsimp only
        rw [if_neg hc, pyJoinSpace_cons_cons, ih]
        simp [replNl, hc]

theorem nl_not_mem_collapseNl (s : List Char) : '\n' ∉ collapseNl s := by
  rw [collapseNl_eq_map]
  intro hmem
  obtain ⟨c, _, hc⟩ := List.mem_map.mp hmem
  by_cases h : c = '\n' <;> simp [replNl, h] at hc

theorem count_nl_collapseNl (s : List Char) : (collapseNl s).count '\n' = 0 :=
  List.count_eq_zero.mpr (nl_not_mem_collapseNl s)

theorem count_nl_flatten (sentences : List (List Char)) :
    ((sentences.map fun s => collapseNl s ++ ['\n']).flatten).count '\n' =
      sentences.length := by
  induction sentences with
  | nil => rfl
  | cons s rest ih =>
    simp only [List.map_cons, List.flatten_cons, List.count_append, ih,
      count_nl_collapseNl, List.length_cons]
    simp [List.count_cons]
    omega

/-- The written file holds exactly one newline terminator per sentence of the
response: its line count is the total number of sentences, in all batches. -/
theorem countLines_fileContent (response : List Batch) :
    countLines (fileContent response) =
      (response.map fun batch => batch.sentences.length).sum := by
  unfold countLines fileContent
  induction response with
  | nil => rfl
  | cons batch rest ih =>
    simp only [List.map_cons, List.flatten_cons, List.count_append, ih,
      count_nl_flatten, List.sum_cons]

/-- Reduction of `main` once both mandatory paths are present. -/
theorem main_eq_ok (env : Env) (cfg : Config) (bp pp : String)
    (h1 : cfg.model.restore_from_path = some bp)
    (h2 : cfg.model.peft.restore_from_path = some pp) :
    main env cfg =
      ((mainBody env cfg bp pp).1, Except.ok (mainBody env cfg bp pp).2) := by
  unfold main
  rw [h1, h2]

/-- The `GradScaler` value the script constructs, as a function of the
configuration: present exactly when `cfg.trainer.precision == 16`. -/
def scalerVal (cfg : Config) : Option GradScaler :=
  if cfg.trainer.precision = .int 16 then
    some { init_scale := cfg.model.native_amp_init_scale.getD (2 ^ 32)
           growth_interval := cfg.model.native_amp_growth_interval.getD 1000
           hysteresis := cfg.model.hysteresis.getD 2
           enabled :=
             if 1 < cfg.model.pipeline_model_parallel_size then false else true }
  else none

theorem constructed_scaler_eq (env : Env) (cfg : Config) (bp pp : String) :
    (mainBody env cfg bp pp).2.constructed_scaler = scalerVal cfg := by
  by_cases hpre : cfg.trainer.precision = .int 16 ∨ cfg.trainer.precision = .str "bf16"
  · simp only [mainBody, if_pos hpre, scalerVal]
  · have h16 : ¬ cfg.trainer.precision = .int 16 := fun h => hpre (Or.inl h)
    simp only [mainBody, if_neg hpre, scalerVal, if_neg h16]

theorem plugins_eq (env : Env) (cfg : Config) (bp pp : String) :
    (mainBody env cfg bp pp).2.plugins =
      (if cfg.trainer.precision = .int 16 ∨ cfg.trainer.precision = .str "bf16" then
        [if cfg.model.megatron_amp_O2.getD false = true then
            Plugin.megatronHalfPrecision cfg.trainer.precision "cuda" (scalerVal cfg)
          else
            Plugin.pipelineMixedPrecision cfg.trainer.precision "cuda" (scalerVal cfg)]
        else []) ++
      (if cfg.cluster_type = some "BCP" then [Plugin.torchElasticEnvironment]
        else []) := by
  cases ho2 : cfg.model.megatron_amp_O2.getD false <;>
    by_cases hpre : cfg.trainer.precision = .int 16 ∨
        cfg.trainer.precision = .str "bf16" <;>
      simp only [mainBody, scalerVal, ho2, if_pos, if_neg, hpre, ite_true,
        ite_false, Bool.not_false, Bool.and_true, Bool.false_and, Bool.true_and,
        if_true, if_false, Bool.false_eq_true, reduceIte] <;>
    · by_cases h16 : cfg.trainer.precision = .int 16 <;>
        by_cases hcl : cfg.cluster_type = some "BCP" <;> simp [h16, hcl]

/-- A concrete adapter configuration, standing for the content of an adapter
checkpoint archive. -/
def sampleRestoredPeft : PeftModelCfg :=
  { precision := .int 32
    restore_from_path := "/ckpt/base.nemo"
    data :=
      { test_ds :=
          { add_bos := false
            tokens_to_generate := 8
            global_batch_size := 2
            others := [] } }
    others := [("peft_scheme", "lora")] }

/-- A concrete environment of external collaborators. -/
def sampleEnv : Env :=
  { restorePeftConfig := fun _ => sampleRestoredPeft
    isDir := fun _ => false
    response := []
    globalRank := 0 }

/-- A concrete valid configuration tree. -/
def sampleCfg : Config :=
  { model :=
      { restore_from_path := some "/ckpt/base.nemo"
        peft := { restore_from_path := some "/ckpt/adapter.nemo" }
        megatron_amp_O2 := none
        gradient_as_bucket_view := false
        native_amp_init_scale := none
        native_amp_growth_interval := none
        hysteresis := none
        pipeline_model_parallel_size := 1
        data :=
          { test_ds :=
              { add_bos := true
                tokens_to_generate := 30
                global_batch_size := 4
                others := [("file_names", "test.jsonl")] } } }
    trainer := { precision := .int 16, others := [] }
    inference :=
      { outfile_path := some "/tmp/preds.txt"
        add_BOS := false
        tokens_to_generate := 0
        others := [] }
    cluster_type := none }

/-- `sampleCfg` with the mandatory base-model path missing. -/
def cfgNoBase : Config :=
  { sampleCfg with model := { sampleCfg.model with restore_from_path := none } }

/-- C1: if either `model.restore_from_path` or `model.peft.restore_from_path`
is `None`, `main` fails with an assertion error, and the only steps that have
executed are the two `logging.info` calls: no strategy, precision plugin,
trainer, dataset or dataloader has been constructed. -/
theorem C1_assert_failure_precedes_construction (env : Env) (cfg : Config)
    (h : cfg.model.restore_from_path = none ∨
      cfg.model.peft.restore_from_path = none) :
    (∃ msg, (main env cfg).2 = Except.error msg) ∧
      ∀ e ∈ (main env cfg).1, e.isLog = true := by
  rcases h with h1 | h2
  · cases hp : cfg.model.peft.restore_from_path <;>
      simp [main, h1, hp, Event.isLog]
  · cases hb : cfg.model.restore_from_path <;>
      simp [main, h2, hb, Event.isLog]

/-- Witness for C1 at a concrete configuration with a missing base path. -/
theorem C1_witness :
    (∃ msg, (main sampleEnv cfgNoBase).2 = Except.error msg) ∧
      ∀ e ∈ (main sampleEnv cfgNoBase).1, e.isLog = true :=
  C1_assert_failure_precedes_construction sampleEnv cfgNoBase (Or.inl rfl)

/-- C3: once setup completes, the restored adapter configuration carries the
run-time overrides: its `precision` equals `cfg.trainer.precision` and its
`data.test_ds` equals `cfg.model.data.test_ds`. -/
theorem C3_override_propagation (env : Env) (cfg : Config) (bp pp : String)
    (h1 : cfg.model.restore_from_path = some bp)
    (h2 : cfg.model.peft.restore_from_path = some pp) :
    ∃ r, (main env cfg).2 = Except.ok r ∧
      r.peft_model_cfg.precision = cfg.trainer.precision ∧
      r.peft_model_cfg.data.test_ds = cfg.model.data.test_ds := by
  refine ⟨(mainBody env cfg bp pp).2, ?_, rfl, rfl⟩
  rw [main_eq_ok env cfg bp pp h1 h2]

/-- Witness for C3 at a concrete valid configuration. -/
theorem C3_witness :
    ∃ r, (main sampleEnv sampleCfg).2 = Except.ok r ∧
      r.peft_model_cfg.precision = sampleCfg.trainer.precision ∧
      r.peft_model_cfg.data.test_ds = sampleCfg.model.data.test_ds :=
  C3_override_propagation sampleEnv sampleCfg _ _ rfl rfl

/-- `sampleCfg` with precision 16 and a degenerate pipeline-parallel degree
of 0. -/
def cfgPipe0 : Config :=
  { sampleCfg with
      model := { sampleCfg.model with pipeline_model_parallel_size := 0 } }

/-- `sampleCfg` with `trainer.precision = "bf16"`. -/
def cfgBf16 : Config :=
  { sampleCfg with trainer := { sampleCfg.trainer with precision := .str "bf16" } }

/-- C4 (amended): with `trainer.precision == 16` a `GradScaler` is
constructed, and it is enabled exactly when the pipeline-parallel degree is
not greater than 1 (the code tests `pipeline_model_parallel_size > 1`, so a
degenerate degree below 1 also leaves the scaler enabled). -/
theorem C4_scaler_enabled_iff_no_pipeline (env : Env) (cfg : Config)
    (bp pp : String)
    (h1 : cfg.model.restore_from_path = some bp)
    (h2 : cfg.model.peft.restore_from_path = some pp)
    (hp : cfg.trainer.precision = .int 16) :
    ∃ r g, (main env cfg).2 = Except.ok r ∧ r.constructed_scaler = some g ∧
      (g.enabled = true ↔ cfg.model.pipeline_model_parallel_size ≤ 1) := by
  refine ⟨(mainBody env cfg bp pp).2,
    { init_scale := cfg.model.native_amp_init_scale.getD (2 ^ 32)
      growth_interval := cfg.model.native_amp_growth_interval.getD 1000
      hysteresis := cfg.model.hysteresis.getD 2
      enabled :=
        if 1 < cfg.model.pipeline_model_parallel_size then false else true },
    ?_, ?_, ?_⟩
  · rw [main_eq_ok env cfg bp pp h1 h2]
  · rw [constructed_scaler_eq]
    simp [scalerVal, hp]
  · by_cases hlt : 1 < cfg.model.pipeline_model_parallel_size <;>
      (simp [hlt]; try omega)

/-- Witness for the amended C4 at a concrete configuration with pipeline
degree 1. -/
theorem C4_witness :
    ∃ r g, (main sampleEnv sampleCfg).2 = Except.ok r ∧
      r.constructed_scaler = some g ∧
      (g.enabled = true ↔ sampleCfg.model.pipeline_model_parallel_size ≤ 1) :=
  C4_scaler_enabled_iff_no_pipeline sampleEnv sampleCfg _ _ rfl rfl rfl

/-- Counterexample to C4 as stated: with precision 16 and
`pipeline_model_parallel_size = 0` (which is not 1), the scaler is
nevertheless constructed with `enabled=True`, because the code only tests
`pipeline_model_parallel_size > 1`. -/
theorem C4_counterexample :
    cfgPipe0.trainer.precision = .int 16 ∧
    cfgPipe0.model.pipeline_model_parallel_size ≠ 1 ∧
    ∃ r, (main sampleEnv cfgPipe0).2 = Except.ok r ∧
      ∃ g, r.constructed_scaler = some g ∧ g.enabled = true := by
  refine ⟨rfl, by decide,
    (mainBody sampleEnv cfgPipe0 "/ckpt/base.nemo" "/ckpt/adapter.nemo").2,
    ?_, ?_⟩
  · rw [main_eq_ok sampleEnv cfgPipe0 "/ckpt/base.nemo" "/ckpt/adapter.nemo"
      rfl rfl]
  · rw [constructed_scaler_eq]
    exact ⟨⟨4294967296, 1000, 2, true⟩, by decide, rfl⟩

/-- C5: the elastic-environment plugin is in the `Trainer` plugin list exactly
when `cfg.cluster_type == "BCP"`. -/
theorem C5_elastic_env_iff_bcp (env : Env) (cfg : Config) (bp pp : String)
    (h1 : cfg.model.restore_from_path = some bp)
    (h2 : cfg.model.peft.restore_from_path = some pp) :
    ∃ r, (main env cfg).2 = Except.ok r ∧
      (Plugin.torchElasticEnvironment ∈ r.plugins ↔
        cfg.cluster_type = some "BCP") := by
  refine ⟨(mainBody env cfg bp pp).2, ?_, ?_⟩
  · rw [main_eq_ok env cfg bp pp h1 h2]
  · rw [plugins_eq]
    by_cases hcl : cfg.cluster_type = some "BCP" <;>
      by_cases hpre : cfg.trainer.precision = .int 16 ∨
          cfg.trainer.precision = .str "bf16" <;>
        cases ho2 : cfg.model.megatron_amp_O2.getD false <;>
          simp [hcl, hpre, ho2]

/-- Witness for C5 at a concrete configuration with no cluster type. -/
theorem C5_witness :
    ∃ r, (main sampleEnv sampleCfg).2 = Except.ok r ∧
      (Plugin.torchElasticEnvironment ∈ r.plugins ↔
        sampleCfg.cluster_type = some "BCP") :=
  C5_elastic_env_iff_bcp sampleEnv sampleCfg _ _ rfl rfl

/-- C6: a numeric precision plugin is in the plugin list exactly when the
precision is 16 or `"bf16"`, and any such plugin is the half-precision plugin
exactly when `megatron_amp_O2` is set (with `with_distributed_adam` fixed
false) and the pipeline mixed-precision plugin otherwise. -/
theorem C6_numeric_plugin_selection (env : Env) (cfg : Config) (bp pp : String)
    (h1 : cfg.model.restore_from_path = some bp)
    (h2 : cfg.model.peft.restore_from_path = some pp) :
    ∃ r, (main env cfg).2 = Except.ok r ∧
      ((∃ p ∈ r.plugins, p.isNumeric = true) ↔
        (cfg.trainer.precision = .int 16 ∨
          cfg.trainer.precision = .str "bf16")) ∧
      ∀ p ∈ r.plugins, p.isNumeric = true →
        (p.isHalf = true ↔ cfg.model.megatron_amp_O2.getD false = true) := by
  refine ⟨(mainBody env cfg bp pp).2, ?_, ?_, ?_⟩
  · rw [main_eq_ok env cfg bp pp h1 h2]
  · rw [plugins_eq]
    by_cases hpre : cfg.trainer.precision = .int 16 ∨
        cfg.trainer.precision = .str "bf16" <;>
      cases ho2 : cfg.model.megatron_amp_O2.getD false <;>
        by_cases hcl : cfg.cluster_type = some "BCP" <;>
          simp [hpre, ho2, hcl, Plugin.isNumeric]
  · rw [plugins_eq]
    by_cases hpre : cfg.trainer.precision = .int 16 ∨
        cfg.trainer.precision = .str "bf16" <;>
      cases ho2 : cfg.model.megatron_amp_O2.getD false <;>
        by_cases hcl : cfg.cluster_type = some "BCP" <;>
          simp [hpre, ho2, hcl, Plugin.isNumeric, Plugin.isHalf]

/-- Witness for C6 at a concrete configuration with precision 16 and
`megatron_amp_O2` unset. -/
theorem C6_witness :
    ∃ r, (main sampleEnv sampleCfg).2 = Except.ok r ∧
      ((∃ p ∈ r.plugins, p.isNumeric = true) ↔
        (sampleCfg.trainer.precision = .int 16 ∨
          sampleCfg.trainer.precision = .str "bf16")) ∧
      ∀ p ∈ r.plugins, p.isNumeric = true →
        (p.isHalf = true ↔ sampleCfg.model.megatron_amp_O2.getD false = true) :=
  C6_numeric_plugin_selection sampleEnv sampleCfg _ _ rfl rfl

/-- C9: with `"bf16"` precision no `GradScaler` is constructed and the
precision plugin that is appended receives `scaler=None`. -/
theorem C9_bf16_no_scaler (env : Env) (cfg : Config) (bp pp : String)
    (h1 : cfg.model.restore_from_path = some bp)
    (h2 : cfg.model.peft.restore_from_path = some pp)
    (hp : cfg.trainer.precision = .str "bf16") :
    ∃ r, (main env cfg).2 = Except.ok r ∧ r.constructed_scaler = none ∧
      (∃ p ∈ r.plugins, p.isNumeric = true) ∧
      ∀ p ∈ r.plugins, p.scalerOf = none := by
  refine ⟨(mainBody env cfg bp pp).2, ?_, ?_, ?_, ?_⟩
  · rw [main_eq_ok env cfg bp pp h1 h2]
  · rw [constructed_scaler_eq]
    simp [scalerVal, hp]
  · rw [plugins_eq]
    cases ho2 : cfg.model.megatron_amp_O2.getD false <;>
      by_cases hcl : cfg.cluster_type = some "BCP" <;>
        simp [hp, ho2, hcl, Plugin.isNumeric]
  · rw [plugins_eq]
    cases ho2 : cfg.model.megatron_amp_O2.getD false <;>
      by_cases hcl : cfg.cluster_type = some "BCP" <;>
        simp [hp, ho2, hcl, Plugin.scalerOf, scalerVal]

/-- Witness for C9 at a concrete `"bf16"` configuration. -/
theorem C9_witness :
    ∃ r, (main sampleEnv cfgBf16).2 = Except.ok r ∧
      r.constructed_scaler = none ∧
      (∃ p ∈ r.plugins, p.isNumeric = true) ∧
      ∀ p ∈ r.plugins, p.scalerOf = none :=
  C9_bf16_no_scaler sampleEnv cfgBf16 _ _ rfl rfl rfl

theorem fileContent_two_two (s1 s2 s3 s4 : List Char) :
    fileContent [⟨[s1, s2]⟩, ⟨[s3, s4]⟩] =
      (s1.map replNl ++ ['\n']) ++ ((s2.map replNl ++ ['\n']) ++
        ((s3.map replNl ++ ['\n']) ++ (s4.map replNl ++ ['\n']))) := by
  simp [fileContent, collapseNl_eq_map]

/-- C2: with an outfile path configured and a response of two batches of two
sentences each, the coordinating process writes the file whose content is the
four newline-collapsed sentences, each terminated by a newline, in
batch-then-item order — exactly four lines, with every internal newline of a
sentence replaced by a single space. -/
theorem C2_outfile_four_lines (env : Env) (cfg : Config) (bp pp path : String)
    (s1 s2 s3 s4 : List Char)
    (h1 : cfg.model.restore_from_path = some bp)
    (h2 : cfg.model.peft.restore_from_path = some pp)
    (hrank : env.globalRank = 0)
    (hout : cfg.inference.outfile_path = some path)
    (hresp : env.response = [⟨[s1, s2]⟩, ⟨[s3, s4]⟩])
    (_hnl : '\n' ∈ s1 ∨ '\n' ∈ s2 ∨ '\n' ∈ s3 ∨ '\n' ∈ s4) :
    ∃ r, (main env cfg).2 = Except.ok r ∧
      r.written_file = some (path, fileContent [⟨[s1, s2]⟩, ⟨[s3, s4]⟩]) ∧
      fileContent [⟨[s1, s2]⟩, ⟨[s3, s4]⟩] =
        (s1.map replNl ++ ['\n']) ++ ((s2.map replNl ++ ['\n']) ++
          ((s3.map replNl ++ ['\n']) ++ (s4.map replNl ++ ['\n']))) ∧
      countLines (fileContent [⟨[s1, s2]⟩, ⟨[s3, s4]⟩]) = 4 := by
  refine ⟨(mainBody env cfg bp pp).2, ?_, ?_,
    fileContent_two_two s1 s2 s3 s4, ?_⟩
  · rw [main_eq_ok env cfg bp pp h1 h2]
  · simp [mainBody, hrank, hout, hresp]
  · rw [countLines_fileContent]
    rfl

/-- Witness for C2: a concrete response whose first sentence holds an internal
newline. -/
theorem C2_witness :
    ∃ r,
      (main
        { sampleEnv with
            response :=
              [⟨[['a', '\n', 'b'], ['c', 'd']]⟩, ⟨[['e'], ['f', 'g']]⟩] }
        sampleCfg).2 = Except.ok r ∧
      r.written_file = some ("/tmp/preds.txt",
        fileContent
          [⟨[['a', '\n', 'b'], ['c', 'd']]⟩, ⟨[['e'], ['f', 'g']]⟩]) ∧
      fileContent [⟨[['a', '\n', 'b'], ['c', 'd']]⟩, ⟨[['e'], ['f', 'g']]⟩] =
        (['a', '\n', 'b'].map replNl ++ ['\n']) ++
          ((['c', 'd'].map replNl ++ ['\n']) ++
            ((['e'].map replNl ++ ['\n']) ++
              (['f', 'g'].map replNl ++ ['\n']))) ∧
      countLines
        (fileContent
          [⟨[['a', '\n', 'b'], ['c', 'd']]⟩, ⟨[['e'], ['f', 'g']]⟩]) = 4 :=
  C2_outfile_four_lines
    { sampleEnv with
        response := [⟨[['a', '\n', 'b'], ['c', 'd']]⟩, ⟨[['e'], ['f', 'g']]⟩] }
    sampleCfg _ _ "/tmp/preds.txt" _ _ _ _ rfl rfl rfl rfl rfl
    (Or.inl (by decide))

/-- C7: on a process whose global rank is nonzero, the output-writing step is
skipped entirely: no file is written and the response structure is not
printed. -/
theorem C7_only_rank_zero_writes (env : Env) (cfg : Config) (bp pp : String)
    (h1 : cfg.model.restore_from_path = some bp)
    (h2 : cfg.model.peft.restore_from_path = some pp)
    (hrank : env.globalRank ≠ 0) :
    ∃ r, (main env cfg).2 = Except.ok r ∧
      r.written_file = none ∧ r.printed_response = none := by
  refine ⟨(mainBody env cfg bp pp).2, ?_, ?_, ?_⟩
  · rw [main_eq_ok env cfg bp pp h1 h2]
  · simp [mainBody, hrank]
  · simp [mainBody, hrank]

/-- Witness for C7 at a concrete rank-1 environment. -/
theorem C7_witness :
    ∃ r, (main { sampleEnv with globalRank := 1 } sampleCfg).2 = Except.ok r ∧
      r.written_file = none ∧ r.printed_response = none :=
  C7_only_rank_zero_writes { sampleEnv with globalRank := 1 } sampleCfg _ _
    rfl rfl (by decide)

/-- C8: with no outfile path configured, no file is written and the
coordinating (rank-zero) process prints the raw collected response
structure. -/
theorem C8_no_outfile_prints_response (env : Env) (cfg : Config)
    (bp pp : String)
    (h1 : cfg.model.restore_from_path = some bp)
    (h2 : cfg.model.peft.restore_from_path = some pp)
    (hrank : env.globalRank = 0)
    (hout : cfg.inference.outfile_path = none) :
    ∃ r, (main env cfg).2 = Except.ok r ∧
      r.written_file = none ∧ r.printed_response = some env.response := by
  refine ⟨(mainBody env cfg bp pp).2, ?_, ?_, ?_⟩
  · rw [main_eq_ok env cfg bp pp h1 h2]
  · simp [mainBody, hrank, hout]
  · simp [mainBody, hrank, hout]

/-- Witness for C8 at a concrete configuration with no outfile path. -/
theorem C8_witness :
    ∃ r,
      (main sampleEnv
        { sampleCfg with
            inference := { sampleCfg.inference with outfile_path := none } }).2 =
        Except.ok r ∧
      r.written_file = none ∧ r.printed_response = some sampleEnv.response :=
  C8_no_outfile_prints_response sampleEnv
    { sampleCfg with
        inference := { sampleCfg.inference with outfile_path := none } }
    _ _ rfl rfl rfl rfl

/-- C10: the inference configuration pushed into the model carries
`add_BOS` and `tokens_to_generate` taken from the patched adapter
configuration's `data.test_ds` (that is, from `cfg.model.data.test_ds`), and
the values those two keys had in the incoming configuration are discarded:
changing them changes nothing in the pushed inference configuration. -/
theorem C10_inference_keys_overwritten (env : Env) (cfg : Config)
    (bp pp : String)
    (h1 : cfg.model.restore_from_path = some bp)
    (h2 : cfg.model.peft.restore_from_path = some pp) :
    ∃ r, (main env cfg).2 = Except.ok r ∧
      r.inference_config.add_BOS = r.peft_model_cfg.data.test_ds.add_bos ∧
      r.inference_config.add_BOS = cfg.model.data.test_ds.add_bos ∧
      r.inference_config.tokens_to_generate =
        cfg.model.data.test_ds.tokens_to_generate ∧
      ∀ b n, ∃ r2,
        (main env
          { cfg with
              inference :=
                { cfg.inference with
                    add_BOS := b, tokens_to_generate := n } }).2 =
          Except.ok r2 ∧
        r2.inference_config = r.inference_config := by
  refine ⟨(mainBody env cfg bp pp).2, ?_, rfl, rfl, rfl, ?_⟩
  · rw [main_eq_ok env cfg bp pp h1 h2]
  · intro b n
    refine ⟨(mainBody env
      { cfg with
          inference :=
            { cfg.inference with add_BOS := b, tokens_to_generate := n } }
      bp pp).2, ?_, rfl⟩
    rw [main_eq_ok env
      { cfg with
          inference :=
            { cfg.inference with add_BOS := b, tokens_to_generate := n } }
      bp pp h1 h2]

/-- Witness for C10 at a concrete valid configuration. -/
theorem C10_witness :
    ∃ r, (main sampleEnv sampleCfg).2 = Except.ok r ∧
      r.inference_config.add_BOS = r.peft_model_cfg.data.test_ds.add_bos ∧
      r.inference_config.add_BOS = sampleCfg.model.data.test_ds.add_bos ∧
      r.inference_config.tokens_to_generate =
        sampleCfg.model.data.test_ds.tokens_to_generate ∧
      ∀ b n, ∃ r2,
        (main sampleEnv
          { sampleCfg with
              inference :=
                { sampleCfg.inference with
                    add_BOS := b, tokens_to_generate := n } }).2 =
          Except.ok r2 ∧
        r2.inference_config = r.inference_config :=
  C10_inference_keys_overwritten sampleEnv sampleCfg _ _ rfl rfl

end MegatronGptPeftEval
